import Mathlib

/-!
# Verification of the Portainer Home Assistant integration core

Shallow embedding of the core of the `homeassistant-portainer` integration:

* the transport layer (`custom_components/portainer/api.py`):
  `query`, `get_container_stats`, `_record_success`, `_record_failure`
  and the shared connectivity flag with its per-service failure counters;
* the main coordinator (`custom_components/portainer/coordinator.py`):
  the tick pipeline `_async_update_data`, container flattening and the
  stable by-name index, `get_stacks` with its compose-label fallback,
  the pure stats helpers `compute_cpu_percent`,
  `compute_memory_used_bytes`, `compute_memory_percent`, and the
  per-container stats sub-coordinator with its registry
  (`get_or_create_container_stats_coordinator`);
* the container sensor identity logic
  (`custom_components/portainer/sensor.py`):
  unique-id construction and `_resolve_current_container`.

Python dictionaries are modelled as association lists (`AList`), JSON
documents as the inductive `JVal`, machine floats as exact rationals
(the arithmetic in the source is plain `+ - * /` on counter values),
and the HTTP layer as an oracle value describing the outcome of one
request.
-/

set_option autoImplicit false

namespace Portainer

/-! ## Association lists (model of Python `dict`, insertion ordered) -/

/-- A Python `dict` with `String` keys: insertion-ordered association
list, later `insert` of an existing key overwrites in place. -/
abbrev AList (α : Type) : Type := List (String × α)

namespace AList

def empty {α : Type} : AList α := []

def get {α : Type} (m : AList α) (k : String) : Option α :=
  match m with
  | [] => none
  | (k', v) :: rest => if k' = k then some v else get rest k

/-- `d[k] = v`: overwrite the first binding of `k`, else append. -/
def insert {α : Type} (m : AList α) (k : String) (v : α) : AList α :=
  match m with
  | [] => [(k, v)]
  | (k', v') :: rest =>
      if k' = k then (k', v) :: rest else (k', v') :: insert rest k v

def values {α : Type} (m : AList α) : List α := m.map Prod.snd

def keys {α : Type} (m : AList α) : List String := m.map Prod.fst

/-- Number of bindings of key `k` (a well-formed dict model has ≤ 1). -/
def countKey {α : Type} (m : AList α) (k : String) : Nat :=
  (m.filter (fun p => p.1 = k)).length

end AList

/-! ## Transport layer — `api.py`

`PortainerAPI` keeps `self._connected`, `self._error` and
`self._fail_counts`; `query` drives them through `_record_success` /
`_record_failure`, while `get_container_stats` never touches them. -/

/-- The mutable connection-tracking state of `PortainerAPI`
(`self._connected`, `self._error`, `self._fail_counts`). -/
structure APIState where
  connected : Bool
  error : String
  failCounts : String → Nat

/-- State of a fresh `PortainerAPI` (`__init__`): not connected, empty
error, empty failure-count dict (`dict.get(service, 0)` reads 0). -/
def APIState.init : APIState :=
  { connected := false, error := "", failCounts := fun _ => 0 }

/-- The exception classes caught by `query` (`requests` exceptions). -/
inductive ExcKind where
  | connectTimeout
  | readTimeout
  | sslError
  | connectionError
  | requestException
  | unknown
  deriving Repr, DecidableEq

/-- Error code recorded by `query` for each caught exception class. -/
def ExcKind.code : ExcKind → String
  | .connectTimeout => "timeout"
  | .readTimeout => "timeout"
  | .sslError => "ssl_error"
  | .connectionError => "connection_error"
  | .requestException => "request_exception"
  | .unknown => "unknown_exception"

/-- Oracle describing the outcome of one HTTP request: either a raised
transport exception, or a response with a status code and a body that
either parses as JSON (`some payload`) or fails `resp.json()`
(`none`). -/
inductive HttpOutcome (α : Type) where
  | exc (kind : ExcKind)
  | resp (status : Nat) (body : Option α)
  deriving Repr, DecidableEq

/-- `PortainerAPI._record_success`: reset the service's failure
counter, clear the error, mark connected. -/
def recordSuccess (st : APIState) (service : String) : APIState :=
  { connected := true
    error := ""
    failCounts := fun s => if s = service then 0 else st.failCounts s }

/-- `PortainerAPI._record_failure`: bump the service's consecutive
failure counter and store the error code; for `endpoints` — and for
every service other than the exempt `reporting/get_data` — two or more
consecutive failures force the connectivity flag to `false`. -/
def recordFailure (st : APIState) (service : String) (code : String) : APIState :=
  let n := st.failCounts service + 1
  let fc := fun s => if s = service then n else st.failCounts s
  let conn :=
    if service = "endpoints" then
      if n ≥ 2 then false else st.connected
    else if service ≠ "reporting/get_data" then
      if n ≥ 2 then false else st.connected
    else
      st.connected
  { connected := conn, error := code, failCounts := fc }

/-- `PortainerAPI.query`: perform one GET/POST; on a 200 response with
a parseable JSON body return the payload and record success; on any
exception, non-200 status or unparseable body record a failure (with
the matching error code) and return `none`. An unsupported HTTP method
returns `none` without touching the state. -/
def query {α : Type} (st : APIState) (service : String) (method : String)
    (r : HttpOutcome α) : APIState × Option α :=
  if method = "get" ∨ method = "post" then
    match r with
    | .exc k => (recordFailure st service k.code, none)
    | .resp status body =>
        if status = 200 then
          match body with
          | some a => (recordSuccess st service, some a)
          | none => (recordFailure st service "invalid_json", none)
        else
          (recordFailure st service (toString status), none)
  else
    (st, none)

/-- `PortainerAPI.get_container_stats`: one-shot stats request. The
body never calls `_record_success`/`_record_failure` nor assigns
`_connected`/`_error`/`_fail_counts`; any exception is swallowed and
every non-200 or unparseable outcome yields `None`. -/
def getContainerStats {α : Type} (st : APIState) (r : HttpOutcome α) :
    APIState × Option α :=
  match r with
  | .exc _ => (st, none)
  | .resp status body =>
      if status = 200 then
        match body with
        | some a => (st, some a)
        | none => (st, none)
      else
        (st, none)

/-- An HTTP outcome on which `query`'s success branch is not taken:
anything but a 200 response with a parseable body. -/
def HttpOutcome.isFailure {α : Type} : HttpOutcome α → Bool
  | .exc _ => true
  | .resp status body => !(status = 200 && body.isSome)

/-- Error code `query` records for a failing outcome (mirrors the
`except` arms, the `invalid_json` arm and the `str(status)` arm). -/
def HttpOutcome.failCode {α : Type} : HttpOutcome α → String
  | .exc k => k.code
  | .resp status _ =>
      if status = 200 then "invalid_json" else toString status

/-! ## JSON documents and the stats math — `coordinator.py`

`_safe_get`, `compute_cpu_percent`, `compute_memory_used_bytes` and
`compute_memory_percent` walk nested dicts of numeric counters.
Numbers are modelled as exact integers/rationals: every arithmetic
operation in the source is `+ - * /` on counter values. -/

/-- A JSON value (the decoded payloads the coordinator walks). -/
inductive JVal where
  | jnull
  | jnum (n : Int)
  | jstr (s : String)
  | jarr (xs : List JVal)
  | jobj (fields : List (String × JVal))

/-- `dict.get(key)` on a JSON object; `none` when the value is not an
object or the key is missing. -/
def JVal.objGet : JVal → String → Option JVal
  | .jobj fields, k =>
      match fields.find? (fun p => p.1 = k) with
      | some p => some p.2
      | none => none
  | _, _ => none

/-- Python truthiness of a JSON value (`if not stats`, `x or y`). -/
def JVal.truthy : JVal → Bool
  | .jnull => false
  | .jnum n => n ≠ 0
  | .jstr s => s ≠ ""
  | .jarr xs => !xs.isEmpty
  | .jobj fields => !fields.isEmpty

/-- `_safe_get(dct, *path)`: follow the key path, `none` as soon as a
level is not a dict, a key is missing, or a value is JSON null. -/
def safeGet (v : JVal) : List String → Option JVal
  | [] => some v
  | k :: rest =>
      match v.objGet k with
      | some .jnull => none
      | some v' => safeGet v' rest
      | none => none

/-- Numeric content of a JSON value, when it is a number. -/
def JVal.asInt : JVal → Option Int
  | .jnum n => some n
  | _ => none

/-- `(_safe_get(...) or 0)` followed by use as a number: the value if
it is a number, else `0`. -/
def jIntOr0 (v : Option JVal) : Int :=
  match v with
  | some (.jnum n) => n
  | _ => 0

/-- `compute_cpu_percent`: delta-based Docker CPU% formula; `0` when
either delta is not positive; `online_cpus` falls back (through `or`
truthiness) to the length of `percpu_usage`, then to 1. -/
def compute_cpu_percent (stats : JVal) : ℚ :=
  let cpu_total := jIntOr0 (safeGet stats ["cpu_stats", "cpu_usage", "total_usage"])
  let precpu_total := jIntOr0 (safeGet stats ["precpu_stats", "cpu_usage", "total_usage"])
  let system_cpu := jIntOr0 (safeGet stats ["cpu_stats", "system_cpu_usage"])
  let pre_system_cpu := jIntOr0 (safeGet stats ["precpu_stats", "system_cpu_usage"])
  let cpu_delta := cpu_total - precpu_total
  let system_delta := system_cpu - pre_system_cpu
  if cpu_delta ≤ 0 ∨ system_delta ≤ 0 then 0
  else
    let percpu_len : Int :=
      match safeGet stats ["cpu_stats", "cpu_usage", "percpu_usage"] with
      | some (.jarr xs) => xs.length
      | _ => 0
    let online_cpus : Int :=
      match (safeGet stats ["cpu_stats", "online_cpus"]).bind JVal.asInt with
      | some n => if n ≠ 0 then n else if percpu_len ≠ 0 then percpu_len else 1
      | none => if percpu_len ≠ 0 then percpu_len else 1
    ((cpu_delta : ℚ) / (system_delta : ℚ)) * (online_cpus : ℚ) * 100

/-- `compute_memory_used_bytes`: raw `usage` when cache exclusion is
off; else `usage - cache`, with `inactive_file` replacing an absent or
zero `cache`; floored at zero. -/
def compute_memory_used_bytes (stats : JVal) (exclude_cache : Bool) : Int :=
  let usage := jIntOr0 (safeGet stats ["memory_stats", "usage"])
  if !exclude_cache then
    max usage 0
  else
    let cache := jIntOr0 (safeGet stats ["memory_stats", "stats", "cache"])
    let cache :=
      if cache = 0 then jIntOr0 (safeGet stats ["memory_stats", "stats", "inactive_file"])
      else cache
    max (usage - cache) 0

/-- `compute_memory_percent`: `used/limit*100`, and `0` whenever
`limit ≤ 0`. -/
def compute_memory_percent (stats : JVal) (used_bytes : Int) : ℚ :=
  let limit := jIntOr0 (safeGet stats ["memory_stats", "limit"])
  if limit ≤ 0 then 0
  else ((used_bytes : ℚ) / (limit : ℚ)) * 100

/-! ## Inventory records — `coordinator.py` -/

/-- A normalized container record (the fields `parse_api` extracts
plus the stamped `EndpointId` and resolved `Name`). -/
structure Container where
  Id : String
  Name : String
  EndpointId : Nat
  Compose_Stack : String
  Compose_Service : String
  State : String
  deriving Repr, DecidableEq

/-- A normalized endpoint record (`Id`, display `Name`, online
`Status`; status code 1 means online). -/
structure Endpoint where
  Id : Nat
  Name : String
  Status : Nat
  deriving Repr, DecidableEq

/-- `raw_data["endpoints"].get(eid)`. -/
def epGet (endpoints : List Endpoint) (eid : Nat) : Option Endpoint :=
  endpoints.find? (fun e => e.Id = eid)

/-- A stack record as stored in `raw_data["stacks"]`: `Id` is the
upstream numeric id rendered as text, or the synthetic
`synth-<EndpointId>:<StackName>` id. -/
structure StackRec where
  Id : String
  Name : String
  EndpointId : Nat
  Type_ : Nat
  Environment : String
  deriving Repr, DecidableEq

/-- A stack as returned by the upstream `stacks` API. -/
structure RawStack where
  Id : Nat
  Name : String
  EndpointId : Nat
  Type_ : Nat
  deriving Repr, DecidableEq

/-- `_flatten_containers_dict_by_id` composed with the per-endpoint
fetch loop of `get_containers`: for each online endpoint, its fetched
containers keyed by `f"{eid}{cid}"`, with `EndpointId` stamped. -/
def flattenContainersById (endpoints : List Endpoint)
    (fetched : Nat → List Container) : AList Container :=
  endpoints.foldl
    (fun flat ep =>
      if ep.Status = 1 then
        (fetched ep.Id).foldl
          (fun flat c =>
            AList.insert flat s!"{ep.Id}{c.Id}" { c with EndpointId := ep.Id })
          flat
      else flat)
    AList.empty

/-- `_index_containers_by_name`: re-key the flattened containers by
the stable `f"{eid}:{name}"` handle, skipping unnamed records. -/
def indexContainersByName (flat : AList Container) : AList Container :=
  (AList.values flat).foldl
    (fun idx c =>
      if c.Name = "" then idx
      else AList.insert idx s!"{c.EndpointId}:{c.Name}" c)
    AList.empty

/-! ## Stacks and the compose-label fallback — `get_stacks` -/

/-- Python `str.strip()`: drop leading and trailing whitespace
(modelled at the character level; `String.trim` in core is defined by
well-founded recursion on byte positions and does not reduce). -/
def pyStrip (s : String) : String :=
  String.mk (((s.data.dropWhile Char.isWhitespace).reverse.dropWhile
    Char.isWhitespace).reverse)

/-- `_fallback_stacks_from_containers`: one synthetic stack per
distinct (non-zero endpoint, non-empty stripped compose-project label)
pair observed on the flattened container snapshot, keyed
`f"{eid}:synth-{eid}:{name}"`, first occurrence wins. -/
def fallbackStacksFromContainers (endpoints : List Endpoint)
    (flat : AList Container) : AList StackRec :=
  (AList.values flat).foldl
    (fun result c =>
      let eid := c.EndpointId
      let stack_name := pyStrip c.Compose_Stack
      if eid = 0 ∨ stack_name = "" then result
      else
        let synth_id := s!"synth-{eid}:{stack_name}"
        let key := s!"{eid}:{synth_id}"
        if (AList.get result key).isSome then result
        else
          result ++ [(key,
            { Id := synth_id
              Name := stack_name
              EndpointId := eid
              Type_ := 0
              Environment := (match epGet endpoints eid with
                              | some e => e.Name
                              | none => "") })])
    AList.empty

/-- `get_stacks`: normalize the upstream stacks, keep only those on
online endpoints, and fall back to compose-label synthesis when the
upstream yields nothing or everything is filtered out. Returns the
value stored into `raw_data["stacks"]`. -/
def getStacks (endpoints : List Endpoint) (flat : AList Container)
    (src : Option (List RawStack)) : AList StackRec :=
  if endpoints.isEmpty then AList.empty
  else
    let stacksMap := src.getD []
    if stacksMap.isEmpty then fallbackStacksFromContainers endpoints flat
    else
      let grouped : AList (AList StackRec) :=
        stacksMap.foldl
          (fun grouped s =>
            if (endpoints.filter (fun e => e.Status = 1)).any
                (fun e => e.Id = s.EndpointId) then
              match epGet endpoints s.EndpointId with
              | none => grouped
              | some ep =>
                  let rec_ : StackRec :=
                    { Id := toString s.Id
                      Name := s.Name
                      EndpointId := s.EndpointId
                      Type_ := s.Type_
                      Environment := ep.Name }
                  let sub := (AList.get grouped (toString s.EndpointId)).getD AList.empty
                  AList.insert grouped (toString s.EndpointId)
                    (AList.insert sub (toString s.Id) rec_)
            else grouped)
          AList.empty
      if grouped.isEmpty then fallbackStacksFromContainers endpoints flat
      else
        grouped.foldl
          (fun out p =>
            p.2.foldl (fun out q => out ++ [(s!"{p.1}:{q.1}", q.2)]) out)
          []

/-! ## Per-container stats sub-coordinator — `ContainerStatsCoordinator` -/

/-- `ContainerStatsData`: the computed snapshot cached by the stats
sub-coordinator. -/
structure ContainerStatsData where
  cpu_percent : ℚ
  mem_used_bytes : Int
  mem_used_mib : ℚ
  mem_percent : ℚ
  raw : JVal

/-- The zero-valued snapshot synthesized when no data has ever been
computed. -/
def zeroStats : ContainerStatsData :=
  { cpu_percent := 0, mem_used_bytes := 0, mem_used_mib := 0,
    mem_percent := 0, raw := JVal.jobj [] }

/-- The mutable state of one `ContainerStatsCoordinator` instance:
identity/configuration fields plus the EMA state `_last_cpu` and the
cached snapshot `_last`. -/
structure StatsCoord where
  endpointId : Nat
  containerId : String
  containerKey : String
  alpha : ℚ
  excludeCache : Bool
  lastCpu : Option ℚ
  last : Option ContainerStatsData

/-- `ContainerStatsCoordinator._async_update_data` given the stats
fetch outcome: on no data, keep the last snapshot or synthesize zeros;
on data, compute CPU% (with optional EMA smoothing), memory used
(bytes and MiB) and memory percent, and cache the snapshot. -/
def statsUpdate (c : StatsCoord) (stats : Option JVal) :
    StatsCoord × ContainerStatsData :=
  let noData := match stats with
                | none => true
                | some v => !v.truthy
  if noData then
    match c.last with
    | some d => (c, d)
    | none => ({ c with last := some zeroStats }, zeroStats)
  else
    let s := stats.getD (JVal.jobj [])
    let cpu := compute_cpu_percent s
    let (lastCpu', cpu_out) :=
      if c.alpha ≠ 0 ∧ c.alpha > 0 then
        let smoothed :=
          match c.lastCpu with
          | none => cpu
          | some prev => c.alpha * cpu + (1 - c.alpha) * prev
        (some smoothed, smoothed)
      else (c.lastCpu, cpu)
    let used_bytes := compute_memory_used_bytes s c.excludeCache
    let mem_mib : ℚ := (used_bytes : ℚ) / 1048576
    let mem_pct := compute_memory_percent s used_bytes
    let data : ContainerStatsData :=
      { cpu_percent := cpu_out, mem_used_bytes := used_bytes,
        mem_used_mib := mem_mib, mem_percent := mem_pct, raw := s }
    ({ c with lastCpu := lastCpu', last := some data }, data)

/-- `get_or_create_container_stats_coordinator`: look the stable key
up in the registry; on a hit return the cached instance with its
target container id updated in place; on a miss create, register and
return a fresh instance. -/
def getOrCreateStatsCoord (registry : AList StatsCoord)
    (endpointId : Nat) (containerKey : String) (containerId : String)
    (alpha : ℚ) (excludeCache : Bool) : StatsCoord × AList StatsCoord :=
  match AList.get registry containerKey with
  | some coord =>
      let coord' := { coord with containerId := containerId }
      (coord', AList.insert registry containerKey coord')
  | none =>
      let coord : StatsCoord :=
        { endpointId := endpointId, containerId := containerId,
          containerKey := containerKey, alpha := alpha,
          excludeCache := excludeCache, lastCpu := none, last := none }
      (coord, AList.insert registry containerKey coord)

/-! ## Container sensor identity — `sensor.py` -/

/-- The identity-bearing state of a `ContainerSensor`: the captured
endpoint id, container name and compose labels, plus the unique id
fixed at construction. -/
structure SensorState where
  endpointId : Nat
  containerName : String
  composeStack : String
  composeService : String
  uniqueId : String
  deriving Repr, DecidableEq

/-- `ContainerSensor.__init__` (identity part): capture the container
coordinates and derive the unique id from the endpoint id and the
container name — never from the ephemeral container id. -/
def mkContainerSensor (c : Container) (sensorKey : String) : SensorState :=
  { endpointId := c.EndpointId
    containerName := c.Name
    composeStack := c.Compose_Stack
    composeService := c.Compose_Service
    uniqueId := s!"portainer_container_{c.EndpointId}_{c.Name}_{sensorKey}" }

/-- `ContainerSensor._resolve_current_container`: look up the stable
`f"{eid}:{name}"` key in the by-name index; on a miss, when a compose
label is present, scan for the first container with the same endpoint
and compose stack/service labels, adopt its name, and return it. -/
def resolveCurrentContainer (s : SensorState) (byName : AList Container) :
    Option Container × SensorState :=
  let key := s!"{s.endpointId}:{s.containerName}"
  match AList.get byName key with
  | some found => (some found, s)
  | none =>
      if s.composeStack ≠ "" ∨ s.composeService ≠ "" then
        match (AList.values byName).find?
            (fun cand =>
              cand.EndpointId == s.endpointId
                && cand.Compose_Stack == s.composeStack
                && cand.Compose_Service == s.composeService) with
        | some cand =>
            let newName := if cand.Name ≠ "" then cand.Name else s.containerName
            (some cand, { s with containerName := newName })
        | none => (none, s)
      else (none, s)

/-- The stable stats-registry key `_container_stats_factory` builds:
`f"{endpoint_id}:{container_name}"`. -/
def stableKey (endpointId : Nat) (containerName : String) : String :=
  s!"{endpointId}:{containerName}"

/-! ## Main coordinator tick — `PortainerCoordinator._async_update_data` -/

/-- The derived system fields `get_system_data` stores. -/
structure SystemData where
  nextUpdateCheck : String
  updateFeatureEnabled : Bool
  lastUpdateCheck : String
  deriving Repr, DecidableEq

/-- `self.raw_data`: each key of the dict is `none` while unset during
a tick (`self.raw_data = {}` clears them all). -/
structure RawData where
  endpoints : Option (List Endpoint)
  containers : Option (AList Container)
  containersByName : Option (AList Container)
  stacks' : Option (AList StackRec)
  system : Option SystemData

/-- The empty `raw_data` dict `{}`. -/
def emptyRaw : RawData :=
  { endpoints := none, containers := none, containersByName := none,
    stacks' := none, system := none }

/-- Oracle for one tick: the outcome of each executor-run fetch stage
(`get_endpoints`, `get_containers`, `get_stacks`, `get_system_data`);
`error` models an exception escaping that stage. -/
structure FetchOutcomes where
  endpointsQ : Except String (List Endpoint)
  containersQ : Except String (Nat → List Container)
  stacksQ : Except String (Option (List RawStack))
  systemQ : Except String SystemData

/-- The four sequential stages of the tick body, threading
`raw_data` from `{}`; the first exception aborts with the partial
`raw_data` built so far. -/
def runStages (fo : FetchOutcomes) : RawData × Option String :=
  match fo.endpointsQ with
  | .error e => (emptyRaw, some e)
  | .ok eps =>
      let r1 := { emptyRaw with endpoints := some eps }
      match fo.containersQ with
      | .error e => (r1, some e)
      | .ok fetched =>
          let flat := flattenContainersById eps fetched
          let byName := indexContainersByName flat
          let r2 := { r1 with containers := some flat,
                              containersByName := some byName }
          match fo.stacksQ with
          | .error e => (r2, some e)
          | .ok src =>
              let r3 := { r2 with stacks' := some (getStacks eps flat src) }
              match fo.systemQ with
              | .error e => (r3, some e)
              | .ok sd => ({ r3 with system := some sd }, none)

/-- Result of one `_async_update_data` call: lock-timeout returns the
empty dict, a stage exception is re-raised as `UpdateFailed`, success
returns the new snapshot. -/
inductive TickResult where
  | emptyOnLockTimeout
  | updateFailed (err : String)
  | ok

/-- Coordinator state visible around a tick: the framework-published
snapshot (`DataUpdateCoordinator.data`, left untouched when the update
method raises `UpdateFailed`), the working `raw_data`, and whether the
tick lock is held. -/
structure CoordState where
  published : RawData
  rawData : RawData
  lockHeld : Bool

/-- `PortainerCoordinator._async_update_data` plus the framework's
publication rule: on lock timeout return (and publish) `{}`; else run
the stages over a fresh `raw_data`; an exception releases the lock and
surfaces `UpdateFailed`, leaving the published snapshot untouched; on
success release the lock and publish the new snapshot. -/
def asyncUpdateData (st : CoordState) (lockAcquired : Bool)
    (fo : FetchOutcomes) : CoordState × TickResult :=
  if !lockAcquired then
    ({ st with published := emptyRaw }, .emptyOnLockTimeout)
  else
    match runStages fo with
    | (raw, some e) =>
        ({ published := st.published, rawData := raw, lockHeld := false },
         .updateFailed e)
    | (raw, none) =>
        ({ published := raw, rawData := raw, lockHeld := false }, .ok)


/-! ## Transport lemmas -/

theorem query_fail {α : Type} (st : APIState) (svc method : String)
    (r : HttpOutcome α) (hm : method = "get" ∨ method = "post")
    (hf : r.isFailure = true) :
    query st svc method r = (recordFailure st svc r.failCode, none) := by
  cases r with
  | exc k =>
      unfold query
      rw [if_pos hm]
      rfl
  | resp status body =>
      by_cases h200 : status = 200
      · subst h200
        cases body with
        | none =>
            unfold query
            rw [if_pos hm]
            simp [HttpOutcome.failCode]
        | some a => simp [HttpOutcome.isFailure] at hf
      · unfold query
        rw [if_pos hm]
        simp [h200, HttpOutcome.failCode]

theorem query_success {α : Type} (st : APIState) (svc method : String) (a : α)
    (hm : method = "get" ∨ method = "post") :
    query st svc method (HttpOutcome.resp 200 (some a)) =
      (recordSuccess st svc, some a) := by
  unfold query
  rw [if_pos hm]
  rfl

theorem recordFailure_failCounts_self (st : APIState) (s c : String) :
    (recordFailure st s c).failCounts s = st.failCounts s + 1 := by
  simp [recordFailure]

theorem recordFailure_failCounts_other (st : APIState) (s c s' : String)
    (h : s' ≠ s) :
    (recordFailure st s c).failCounts s' = st.failCounts s' := by
  simp [recordFailure, h]

theorem recordFailure_error (st : APIState) (s c : String) :
    (recordFailure st s c).error = c := rfl

theorem recordFailure_connected (st : APIState) (s c : String) :
    (recordFailure st s c).connected =
      if s = "reporting/get_data" then st.connected
      else if st.failCounts s + 1 ≥ 2 then false else st.connected := by
  by_cases he : s = "endpoints"
  · subst he
    simp [recordFailure]
  · by_cases hr : s = "reporting/get_data"
    · subst hr
      simp [recordFailure]
    · simp [recordFailure, he, hr]

theorem recordFailure_connected_first (st : APIState) (s c : String)
    (h : st.failCounts s = 0) :
    (recordFailure st s c).connected = st.connected := by
  rw [recordFailure_connected, h]
  split_ifs with h1 h2
  · rfl
  · omega
  · rfl

theorem recordFailure_connected_second (st : APIState) (s c : String)
    (h : st.failCounts s = 1) (hex : s ≠ "reporting/get_data") :
    (recordFailure st s c).connected = false := by
  rw [recordFailure_connected, h, if_neg hex, if_pos (by omega)]

theorem recordFailure_connected_reporting (st : APIState) (c : String) :
    (recordFailure st "reporting/get_data" c).connected = st.connected := by
  rw [recordFailure_connected, if_pos rfl]

theorem recordSuccess_spec (st : APIState) (s : String) :
    (recordSuccess st s).connected = true
      ∧ (recordSuccess st s).failCounts s = 0 := by
  simp [recordSuccess]

/-! ## Frame lemmas for the stats path -/

theorem getContainerStats_fst {α : Type} (st : APIState) (r : HttpOutcome α) :
    (getContainerStats st r).1 = st := by
  cases r with
  | exc k => rfl
  | resp status body =>
      unfold getContainerStats
      by_cases h : status = 200
      · subst h
        cases body <;> simp
      · simp [h]

theorem getContainerStats_snd_none {α : Type} (st : APIState)
    (r : HttpOutcome α) (hf : r.isFailure = true) :
    (getContainerStats st r).2 = none := by
  cases r with
  | exc k => rfl
  | resp status body =>
      unfold getContainerStats
      by_cases h : status = 200
      · subst h
        cases body with
        | none => simp
        | some a => simp [HttpOutcome.isFailure] at hf
      · simp [h]

/-! ## Claims C3, C4, C5, C10 — the transport contract -/

/-- Claim C3: starting from a connected state (flag true, no recorded
consecutive failures), exactly one failure on the liveness service
`endpoints` leaves the connectivity flag true; two consecutive
failures of `endpoints`, or of any non-exempt service, flip it false;
a single subsequent successful query restores it true and resets that
service's consecutive-failure counter to zero. -/
theorem C3_connectivity_hysteresis {α : Type} (st : APIState) (svc : String)
    (r1 r2 r1' r2' : HttpOutcome α) (a : α)
    (hconn : st.connected = true)
    (hcnt : st.failCounts "endpoints" = 0)
    (hcnt' : st.failCounts svc = 0)
    (hex : svc ≠ "reporting/get_data")
    (hf1 : r1.isFailure = true) (hf2 : r2.isFailure = true)
    (hf1' : r1'.isFailure = true) (hf2' : r2'.isFailure = true) :
    (query st "endpoints" "get" r1).1.connected = true
    ∧ (query (query st "endpoints" "get" r1).1 "endpoints" "get" r2).1.connected
        = false
    ∧ (query (query st svc "get" r1').1 svc "get" r2').1.connected = false
    ∧ (query (query (query st svc "get" r1').1 svc "get" r2').1 svc "get"
        (HttpOutcome.resp 200 (some a))).1.connected = true
    ∧ (query (query (query st svc "get" r1').1 svc "get" r2').1 svc "get"
        (HttpOutcome.resp 200 (some a))).1.failCounts svc = 0 := by
  have hg : ("get" : String) = "get" ∨ ("get" : String) = "post" := Or.inl rfl
  have e1 := query_fail st "endpoints" "get" r1 hg hf1
  have e2 := query_fail (recordFailure st "endpoints" r1.failCode)
    "endpoints" "get" r2 hg hf2
  have e1' := query_fail st svc "get" r1' hg hf1'
  have e2' := query_fail (recordFailure st svc r1'.failCode) svc "get" r2' hg hf2'
  have e3 := query_success (recordFailure (recordFailure st svc r1'.failCode)
    svc r2'.failCode) svc "get" a hg
  have hc1 : (recordFailure st "endpoints" r1.failCode).failCounts "endpoints" = 1 := by
    rw [recordFailure_failCounts_self, hcnt]
  have hc1' : (recordFailure st svc r1'.failCode).failCounts svc = 1 := by
    rw [recordFailure_failCounts_self, hcnt']
  refine ⟨?_, ?_, ?_, ?_, ?_⟩
  · rw [e1]
    rw [recordFailure_connected_first st "endpoints" r1.failCode hcnt]
    exact hconn
  · rw [e1, e2]
    exact recordFailure_connected_second _ "endpoints" _ hc1 (by decide)
  · rw [e1', e2']
    exact recordFailure_connected_second _ svc _ hc1' hex
  · rw [e1', e2', e3]
    exact (recordSuccess_spec _ svc).1
  · rw [e1', e2', e3]
    exact (recordSuccess_spec _ svc).2

/-- Witness for C3 at a concrete connected state and concrete failing
and succeeding outcomes. -/
theorem C3_witness :
    (query (APIState.mk true "" fun _ => 0) "endpoints" "get"
      (HttpOutcome.exc (α := Nat) ExcKind.connectTimeout)).1.connected = true
    ∧ (query (query (APIState.mk true "" fun _ => 0) "endpoints" "get"
        (HttpOutcome.exc (α := Nat) ExcKind.connectTimeout)).1 "endpoints" "get"
        (HttpOutcome.resp 500 (none : Option Nat))).1.connected = false
    ∧ (query (query (APIState.mk true "" fun _ => 0) "containers" "get"
        (HttpOutcome.exc (α := Nat) ExcKind.connectTimeout)).1 "containers" "get"
        (HttpOutcome.resp 500 (none : Option Nat))).1.connected = false
    ∧ (query (query (query (APIState.mk true "" fun _ => 0) "containers" "get"
        (HttpOutcome.exc (α := Nat) ExcKind.connectTimeout)).1 "containers" "get"
        (HttpOutcome.resp 500 (none : Option Nat))).1 "containers" "get"
        (HttpOutcome.resp 200 (some (7 : Nat)))).1.connected = true
    ∧ (query (query (query (APIState.mk true "" fun _ => 0) "containers" "get"
        (HttpOutcome.exc (α := Nat) ExcKind.connectTimeout)).1 "containers" "get"
        (HttpOutcome.resp 500 (none : Option Nat))).1 "containers" "get"
        (HttpOutcome.resp 200 (some (7 : Nat)))).1.failCounts "containers" = 0 :=
  C3_connectivity_hysteresis (APIState.mk true "" fun _ => 0) "containers"
    (HttpOutcome.exc ExcKind.connectTimeout) (HttpOutcome.resp 500 none)
    (HttpOutcome.exc ExcKind.connectTimeout) (HttpOutcome.resp 500 none)
    (7 : Nat) rfl rfl rfl (by decide) rfl rfl rfl rfl

/-- Claim C4: `get_container_stats` never modifies the shared
connectivity flag, the per-service failure counters, or the last-error
string under any outcome; every failure outcome returns `none` rather
than raising; two consecutive stats failures leave connectivity
exactly as it was. -/
theorem C4_stats_isolation {α : Type} (st : APIState)
    (r rf r₁ r₂ : HttpOutcome α) (hf : rf.isFailure = true) :
    (getContainerStats st r).1 = st
    ∧ (getContainerStats st rf).2 = none
    ∧ (getContainerStats (getContainerStats st r₁).1 r₂).1.connected = st.connected
    ∧ (getContainerStats (getContainerStats st r₁).1 r₂).1.error = st.error
    ∧ (∀ s, (getContainerStats (getContainerStats st r₁).1 r₂).1.failCounts s
        = st.failCounts s) := by
  rw [getContainerStats_fst st r₁, getContainerStats_fst st r₂]
  exact ⟨getContainerStats_fst st r, getContainerStats_snd_none st rf hf,
    rfl, rfl, fun s => rfl⟩

/-- Witness for C4: a 404 stats response (stopped container) leaves a
connected state untouched and yields `none`. -/
theorem C4_witness :
    (getContainerStats (APIState.mk true "" fun _ => 0)
      (HttpOutcome.resp 404 (none : Option Nat))).1
        = APIState.mk true "" (fun _ => 0)
    ∧ (getContainerStats (APIState.mk true "" fun _ => 0)
        (HttpOutcome.resp 404 (none : Option Nat))).2 = none
    ∧ (getContainerStats (getContainerStats (APIState.mk true "" fun _ => 0)
        (HttpOutcome.resp 404 (none : Option Nat))).1
        (HttpOutcome.resp 409 (none : Option Nat))).1.connected
        = (APIState.mk true "" fun _ => 0).connected
    ∧ (getContainerStats (getContainerStats (APIState.mk true "" fun _ => 0)
        (HttpOutcome.resp 404 (none : Option Nat))).1
        (HttpOutcome.resp 409 (none : Option Nat))).1.error
        = (APIState.mk true "" fun _ => 0).error
    ∧ (∀ s, (getContainerStats (getContainerStats (APIState.mk true "" fun _ => 0)
        (HttpOutcome.resp 404 (none : Option Nat))).1
        (HttpOutcome.resp 409 (none : Option Nat))).1.failCounts s
        = (APIState.mk true "" fun _ => 0).failCounts s) :=
  C4_stats_isolation (APIState.mk true "" fun _ => 0)
    (HttpOutcome.resp 404 none) (HttpOutcome.resp 404 none)
    (HttpOutcome.resp 404 none) (HttpOutcome.resp 409 none) rfl

/-- Counterexample to claim C5 as stated: a 201 response (a 2xx status)
with a perfectly parseable body makes `query` return `none` and record
a failure — the success branch requires status exactly 200, not 2xx. -/
theorem C5_counterexample :
    (200 ≤ 201 ∧ 201 < 300)
    ∧ (query APIState.init "endpoints" "get"
        (HttpOutcome.resp 201 (some (42 : Nat)))).2 = none
    ∧ (query APIState.init "endpoints" "get"
        (HttpOutcome.resp 201 (some (42 : Nat)))).1.failCounts "endpoints" = 1
    ∧ (query APIState.init "endpoints" "get"
        (HttpOutcome.resp 201 (some (42 : Nat)))).1.error = "201" := by
  refine ⟨by omega, rfl, ?_, rfl⟩
  rw [query_fail APIState.init "endpoints" "get"
    (HttpOutcome.resp 201 (some (42 : Nat))) (Or.inl rfl) (by decide)]
  rw [recordFailure_failCounts_self]
  rfl

/-- Claim C5 (amended: the success branch requires HTTP status exactly
200, not any 2xx): `query` returns the decoded payload exactly when
the response has status 200 and a parseable JSON body; in that case it
resets the service's failure counter and marks the connection up; on
every failing outcome (exception, non-200 status, malformed body) it
records a failure for the service and returns `none`. -/
theorem C5_query_contract {α : Type} (st : APIState) (service method : String)
    (r : HttpOutcome α) (a : α) (hm : method = "get" ∨ method = "post") :
    ((query st service method r).2 = some a ↔ r = HttpOutcome.resp 200 (some a))
    ∧ (r = HttpOutcome.resp 200 (some a) →
        query st service method r = (recordSuccess st service, some a)
        ∧ (query st service method r).1.failCounts service = 0
        ∧ (query st service method r).1.connected = true)
    ∧ (r.isFailure = true →
        (query st service method r).2 = none
        ∧ (query st service method r).1 = recordFailure st service r.failCode) := by
  refine ⟨?_, ?_, ?_⟩
  · cases r with
    | exc k =>
        rw [query_fail st service method (HttpOutcome.exc k) hm rfl]
        simp
    | resp status body =>
        by_cases h200 : status = 200
        · subst h200
          cases body with
          | some b =>
              rw [query_success st service method b hm]
              simp
          | none =>
              rw [query_fail st service method (HttpOutcome.resp 200 none) hm
                (by simp [HttpOutcome.isFailure])]
              simp
        · rw [query_fail st service method (HttpOutcome.resp status body) hm
            (by simp [HttpOutcome.isFailure, h200])]
          simp [h200]
  · intro he
    subst he
    rw [query_success st service method a hm]
    exact ⟨rfl, (recordSuccess_spec st service).2, (recordSuccess_spec st service).1⟩
  · intro hf
    rw [query_fail st service method r hm hf]
    exact ⟨rfl, rfl⟩

/-- Witness for C5 (amended) at a concrete 200-with-body outcome. -/
theorem C5_witness :
    ((query APIState.init "endpoints" "get"
        (HttpOutcome.resp 200 (some (42 : Nat)))).2 = some 42
      ↔ HttpOutcome.resp 200 (some (42 : Nat)) = HttpOutcome.resp 200 (some 42))
    ∧ (HttpOutcome.resp 200 (some (42 : Nat)) = HttpOutcome.resp 200 (some 42) →
        query APIState.init "endpoints" "get" (HttpOutcome.resp 200 (some 42))
          = (recordSuccess APIState.init "endpoints", some 42)
        ∧ (query APIState.init "endpoints" "get"
            (HttpOutcome.resp 200 (some (42 : Nat)))).1.failCounts "endpoints" = 0
        ∧ (query APIState.init "endpoints" "get"
            (HttpOutcome.resp 200 (some (42 : Nat)))).1.connected = true)
    ∧ ((HttpOutcome.resp 200 (some (42 : Nat))).isFailure = true →
        (query APIState.init "endpoints" "get"
          (HttpOutcome.resp 200 (some (42 : Nat)))).2 = none
        ∧ (query APIState.init "endpoints" "get"
            (HttpOutcome.resp 200 (some (42 : Nat)))).1
          = recordFailure APIState.init "endpoints"
              (HttpOutcome.resp 200 (some (42 : Nat))).failCode) :=
  C5_query_contract APIState.init "endpoints" "get"
    (HttpOutcome.resp 200 (some 42)) 42 (Or.inl rfl)

/-- Claim C10: failures of the exempt `reporting/get_data` service
increment its counter and record the error code, but no sequence of
consecutive failures of that service ever changes the connectivity
flag. -/
theorem C10_reporting_exempt {α : Type} (st : APIState) (r : HttpOutcome α)
    (rs : List (HttpOutcome α)) (hf : r.isFailure = true)
    (hfs : ∀ x ∈ rs, x.isFailure = true) :
    (query st "reporting/get_data" "get" r).1.connected = st.connected
    ∧ (query st "reporting/get_data" "get" r).1.failCounts "reporting/get_data"
        = st.failCounts "reporting/get_data" + 1
    ∧ (query st "reporting/get_data" "get" r).1.error = r.failCode
    ∧ (rs.foldl (fun s x => (query s "reporting/get_data" "get" x).1) st).connected
        = st.connected := by
  have hg : ("get" : String) = "get" ∨ ("get" : String) = "post" := Or.inl rfl
  have e := query_fail st "reporting/get_data" "get" r hg hf
  have key : ∀ (l : List (HttpOutcome α)) (s0 : APIState),
      (∀ x ∈ l, x.isFailure = true) →
      (l.foldl (fun s x => (query s "reporting/get_data" "get" x).1) s0).connected
        = s0.connected := by
    intro l
    induction l with
    | nil => intro s0 _; rfl
    | cons x xs ih =>
        intro s0 hall
        have hx : x.isFailure = true := hall x (List.mem_cons_self x xs)
        have hxs : ∀ y ∈ xs, y.isFailure = true :=
          fun y hy => hall y (List.mem_cons_of_mem x hy)
        show (xs.foldl (fun s x => (query s "reporting/get_data" "get" x).1)
          ((query s0 "reporting/get_data" "get" x).1)).connected = s0.connected
        rw [ih _ hxs]
        rw [query_fail s0 "reporting/get_data" "get" x hg hx]
        exact recordFailure_connected_reporting s0 x.failCode
  refine ⟨?_, ?_, ?_, key rs st hfs⟩
  · rw [e]
    exact recordFailure_connected_reporting st r.failCode
  · rw [e]
    exact recordFailure_failCounts_self st "reporting/get_data" r.failCode
  · rw [e]
    rfl

/-- Witness for C10: three consecutive 404 failures of the update-check
path leave a connected state connected. -/
theorem C10_witness :
    (query (APIState.mk true "" fun _ => 0) "reporting/get_data" "get"
      (HttpOutcome.resp 404 (none : Option Nat))).1.connected
        = (APIState.mk true "" fun _ => 0).connected
    ∧ (query (APIState.mk true "" fun _ => 0) "reporting/get_data" "get"
        (HttpOutcome.resp 404 (none : Option Nat))).1.failCounts "reporting/get_data"
        = (APIState.mk true "" fun _ => 0).failCounts "reporting/get_data" + 1
    ∧ (query (APIState.mk true "" fun _ => 0) "reporting/get_data" "get"
        (HttpOutcome.resp 404 (none : Option Nat))).1.error
        = (HttpOutcome.resp 404 (none : Option Nat)).failCode
    ∧ ([HttpOutcome.resp 404 (none : Option Nat), HttpOutcome.resp 429 none,
        HttpOutcome.resp 500 none].foldl
        (fun s x => (query s "reporting/get_data" "get" x).1)
        (APIState.mk true "" fun _ => 0)).connected
        = (APIState.mk true "" fun _ => 0).connected :=
  C10_reporting_exempt (APIState.mk true "" fun _ => 0)
    (HttpOutcome.resp 404 none)
    [HttpOutcome.resp 404 none, HttpOutcome.resp 429 none, HttpOutcome.resp 500 none]
    rfl (by intro x hx; fin_cases hx <;> rfl)

/-! ## Claims C6, C7, C8 — the stats math and the stats tick -/

/-- A one-shot Docker stats payload with the CPU counter fields,
`online_cpus` optionally present, used to exercise
`compute_cpu_percent` on arbitrary counter values. -/
def mkCpuStats (ct pt sy ps : Int) (oc : Option Int) (percpu : List JVal) : JVal :=
  JVal.jobj
    [("cpu_stats", JVal.jobj
        ([("cpu_usage", JVal.jobj
             [("total_usage", JVal.jnum ct),
              ("percpu_usage", JVal.jarr percpu)]),
          ("system_cpu_usage", JVal.jnum sy)] ++
         (match oc with
          | some n => [("online_cpus", JVal.jnum n)]
          | none => []))),
     ("precpu_stats", JVal.jobj
        [("cpu_usage", JVal.jobj [("total_usage", JVal.jnum pt)]),
         ("system_cpu_usage", JVal.jnum ps)])]

/-- A stats payload with the memory fields, `cache` and
`inactive_file` optionally present. -/
def mkMemStats (usage : Int) (cache inactive : Option Int) (limit : Int) : JVal :=
  JVal.jobj
    [("memory_stats", JVal.jobj
        [("usage", JVal.jnum usage),
         ("limit", JVal.jnum limit),
         ("stats", JVal.jobj
            ((match cache with
              | some n => [("cache", JVal.jnum n)]
              | none => []) ++
             (match inactive with
              | some n => [("inactive_file", JVal.jnum n)]
              | none => [])))])]

/-- Claim C6: `compute_cpu_percent` returns
`(cpu_usage_delta / system_cpu_delta) * online_cpu_count * 100`, with
`online_cpu_count` falling back to the length of the per-CPU usage
array, then to 1, when not directly reported; whenever either delta is
non-positive the result is 0; and the concrete instance
(delta 100000000, system delta 500000000, 4 CPUs) yields 80. -/
theorem C6_compute_cpu_percent (stats : JVal) (ct pt sy ps oc : Int)
    (percpu : List JVal) (hd : 0 < ct - pt) (hs : 0 < sy - ps) (hoc : oc ≠ 0) :
    (jIntOr0 (safeGet stats ["cpu_stats", "cpu_usage", "total_usage"])
        - jIntOr0 (safeGet stats ["precpu_stats", "cpu_usage", "total_usage"]) ≤ 0
      ∨ jIntOr0 (safeGet stats ["cpu_stats", "system_cpu_usage"])
        - jIntOr0 (safeGet stats ["precpu_stats", "system_cpu_usage"]) ≤ 0
      → compute_cpu_percent stats = 0)
    ∧ compute_cpu_percent (mkCpuStats ct pt sy ps (some oc) percpu)
        = ((ct - pt : ℚ) / (sy - ps : ℚ)) * (oc : ℚ) * 100
    ∧ (percpu ≠ [] →
        compute_cpu_percent (mkCpuStats ct pt sy ps none percpu)
          = ((ct - pt : ℚ) / (sy - ps : ℚ)) * (percpu.length : ℚ) * 100)
    ∧ compute_cpu_percent (mkCpuStats ct pt sy ps none [])
        = ((ct - pt : ℚ) / (sy - ps : ℚ)) * 1 * 100
    ∧ compute_cpu_percent (mkCpuStats 100000000 0 500000000 0 (some 4) []) = 80 := by
  have hd' : ¬(ct - pt ≤ 0) := by omega
  have hs' : ¬(sy - ps ≤ 0) := by omega
  have key : ∀ (ct' pt' sy' ps' oc' : Int) (pc : List JVal),
      ¬(ct' - pt' ≤ 0) → ¬(sy' - ps' ≤ 0) → oc' ≠ 0 →
      compute_cpu_percent (mkCpuStats ct' pt' sy' ps' (some oc') pc)
        = ((ct' - pt' : ℚ) / (sy' - ps' : ℚ)) * (oc' : ℚ) * 100 := by
    intro ct' pt' sy' ps' oc' pc h1 h2 h3
    simp [compute_cpu_percent, mkCpuStats, safeGet, JVal.objGet, jIntOr0,
      JVal.asInt, h1, h2, h3]
  refine ⟨?_, ?_, ?_, ?_, ?_⟩
  · intro h
    simp only [compute_cpu_percent]
    rw [if_pos h]
  · exact key ct pt sy ps oc percpu hd' hs' hoc
  · intro hp
    simp [compute_cpu_percent, mkCpuStats, safeGet, JVal.objGet, jIntOr0,
      JVal.asInt, hd', hs', List.isEmpty_iff, hp, List.length_eq_zero]
  · simp [compute_cpu_percent, mkCpuStats, safeGet, JVal.objGet, jIntOr0,
      JVal.asInt, hd', hs']
  · rw [key 100000000 0 500000000 0 4 [] (by omega) (by omega) (by omega)]
    norm_num

/-- Witness for C6 at concrete counters (delta 100000000 over
500000000 with 4 online CPUs, plus a stats document with a negative
delta). -/
theorem C6_witness :
    (jIntOr0 (safeGet (mkCpuStats 5 9 10 0 (some 4) [])
        ["cpu_stats", "cpu_usage", "total_usage"])
        - jIntOr0 (safeGet (mkCpuStats 5 9 10 0 (some 4) [])
        ["precpu_stats", "cpu_usage", "total_usage"]) ≤ 0
      ∨ jIntOr0 (safeGet (mkCpuStats 5 9 10 0 (some 4) [])
        ["cpu_stats", "system_cpu_usage"])
        - jIntOr0 (safeGet (mkCpuStats 5 9 10 0 (some 4) [])
        ["precpu_stats", "system_cpu_usage"]) ≤ 0
      → compute_cpu_percent (mkCpuStats 5 9 10 0 (some 4) []) = 0)
    ∧ compute_cpu_percent (mkCpuStats 6 4 10 0 (some 3) [JVal.jnum 1])
        = ((6 - 4 : ℚ) / (10 - 0 : ℚ)) * (3 : ℚ) * 100
    ∧ ([JVal.jnum 1] ≠ ([] : List JVal) →
        compute_cpu_percent (mkCpuStats 6 4 10 0 none [JVal.jnum 1])
          = ((6 - 4 : ℚ) / (10 - 0 : ℚ)) * (([JVal.jnum 1] : List JVal).length : ℚ) * 100)
    ∧ compute_cpu_percent (mkCpuStats 6 4 10 0 none [])
        = ((6 - 4 : ℚ) / (10 - 0 : ℚ)) * 1 * 100
    ∧ compute_cpu_percent (mkCpuStats 100000000 0 500000000 0 (some 4) []) = 80 := by
  have h := C6_compute_cpu_percent (mkCpuStats 5 9 10 0 (some 4) [])
    6 4 10 0 3 [JVal.jnum 1] (by omega) (by omega) (by omega)
  exact h

/-- Claim C7: with cache exclusion on, memory used is raw `usage`
minus `cache` (with `inactive_file` substituted when `cache` is absent
or zero), floored at zero; with exclusion off it is raw usage (floored
at zero); memory percent is `used/limit*100` and 0 whenever the
extracted limit is non-positive; and the concrete instance
(usage 500000000, cache 100000000, limit 2000000000) yields
used 400000000 and percent 20. -/
theorem C7_compute_memory (stats : JVal) (usage limit c i u : Int)
    (hc : c ≠ 0) (hl : 0 < limit) :
    compute_memory_used_bytes (mkMemStats usage (some c) (some i) limit) true
        = max (usage - c) 0
    ∧ compute_memory_used_bytes (mkMemStats usage (some 0) (some i) limit) true
        = max (usage - i) 0
    ∧ compute_memory_used_bytes (mkMemStats usage none (some i) limit) true
        = max (usage - i) 0
    ∧ compute_memory_used_bytes (mkMemStats usage (some c) (some i) limit) false
        = max usage 0
    ∧ compute_memory_percent (mkMemStats usage (some c) (some i) limit) u
        = ((u : ℚ) / (limit : ℚ)) * 100
    ∧ (jIntOr0 (safeGet stats ["memory_stats", "limit"]) ≤ 0
        → compute_memory_percent stats u = 0)
    ∧ compute_memory_used_bytes
        (mkMemStats 500000000 (some 100000000) none 2000000000) true = 400000000
    ∧ compute_memory_used_bytes
        (mkMemStats 500000000 (some 100000000) none 2000000000) false = 500000000
    ∧ compute_memory_percent
        (mkMemStats 500000000 (some 100000000) none 2000000000) 400000000 = 20 := by
  have hl' : ¬(limit ≤ 0) := by omega
  have kUsed : ∀ (us cv lim : Int), cv ≠ 0 →
      compute_memory_used_bytes (mkMemStats us (some cv) none lim) true
        = max (us - cv) 0 := by
    intro us cv lim h
    simp [compute_memory_used_bytes, mkMemStats, safeGet, JVal.objGet,
      jIntOr0, h]
  have kRaw : ∀ (us cv lim : Int),
      compute_memory_used_bytes (mkMemStats us (some cv) none lim) false
        = max us 0 := by
    intro us cv lim
    simp [compute_memory_used_bytes, mkMemStats, safeGet, JVal.objGet, jIntOr0]
  have kPct : ∀ (us cv lim uu : Int), ¬(lim ≤ 0) →
      compute_memory_percent (mkMemStats us (some cv) none lim) uu
        = ((uu : ℚ) / (lim : ℚ)) * 100 := by
    intro us cv lim uu h
    simp [compute_memory_percent, mkMemStats, safeGet, JVal.objGet, jIntOr0, h]
  refine ⟨?_, ?_, ?_, ?_, ?_, ?_, ?_, ?_, ?_⟩
  · simp [compute_memory_used_bytes, mkMemStats, safeGet, JVal.objGet,
      jIntOr0, hc]
  · simp [compute_memory_used_bytes, mkMemStats, safeGet, JVal.objGet, jIntOr0]
  · simp [compute_memory_used_bytes, mkMemStats, safeGet, JVal.objGet, jIntOr0]
  · simp [compute_memory_used_bytes, mkMemStats, safeGet, JVal.objGet, jIntOr0]
  · simp [compute_memory_percent, mkMemStats, safeGet, JVal.objGet, jIntOr0, hl']
  · intro h
    simp only [compute_memory_percent]
    rw [if_pos h]
  · rw [kUsed 500000000 100000000 2000000000 (by omega)]
    norm_num
  · rw [kRaw 500000000 100000000 2000000000]
    norm_num
  · rw [kPct 500000000 100000000 2000000000 400000000 (by omega)]
    norm_num

/-- Witness for C7 at concrete memory counters. -/
theorem C7_witness :
    compute_memory_used_bytes (mkMemStats 10 (some 3) (some 2) 100) true
        = max (10 - 3) 0
    ∧ compute_memory_used_bytes (mkMemStats 10 (some 0) (some 2) 100) true
        = max (10 - 2) 0
    ∧ compute_memory_used_bytes (mkMemStats 10 none (some 2) 100) true
        = max (10 - 2) 0
    ∧ compute_memory_used_bytes (mkMemStats 10 (some 3) (some 2) 100) false
        = max 10 0
    ∧ compute_memory_percent (mkMemStats 10 (some 3) (some 2) 100) 7
        = ((7 : ℚ) / (100 : ℚ)) * 100
    ∧ (jIntOr0 (safeGet (mkMemStats 10 (some 3) (some 2) 0)
        ["memory_stats", "limit"]) ≤ 0
        → compute_memory_percent (mkMemStats 10 (some 3) (some 2) 0) 7 = 0)
    ∧ compute_memory_used_bytes
        (mkMemStats 500000000 (some 100000000) none 2000000000) true = 400000000
    ∧ compute_memory_used_bytes
        (mkMemStats 500000000 (some 100000000) none 2000000000) false = 500000000
    ∧ compute_memory_percent
        (mkMemStats 500000000 (some 100000000) none 2000000000) 400000000 = 20 :=
  C7_compute_memory (mkMemStats 10 (some 3) (some 2) 0) 10 100 3 2 7
    (by omega) (by omega)

/-- Claim C8: a stats sub-coordinator tick in which the transport
returns no data never raises (the update is a total function), returns
the previously computed snapshot unchanged when one exists, and
otherwise a zero-valued snapshot (cpu 0, 0 bytes, 0 MiB, 0 percent,
empty raw payload). -/
theorem C8_stats_tick_no_data (c : StatsCoord) :
    (∀ d, c.last = some d → statsUpdate c none = (c, d))
    ∧ (c.last = none →
        statsUpdate c none = ({ c with last := some zeroStats }, zeroStats)
        ∧ zeroStats.cpu_percent = 0
        ∧ zeroStats.mem_used_bytes = 0
        ∧ zeroStats.mem_used_mib = 0
        ∧ zeroStats.mem_percent = 0
        ∧ zeroStats.raw = JVal.jobj []) := by
  constructor
  · intro d hd
    unfold statsUpdate
    simp [hd]
  · intro hn
    refine ⟨?_, rfl, rfl, rfl, rfl, rfl⟩
    unfold statsUpdate
    simp [hn]

/-- Witness for C8: a sub-coordinator holding a snapshot keeps it; a
fresh one synthesizes zeros. -/
theorem C8_witness :
    (∀ d, (StatsCoord.mk 1 "cid" "1:web" 0 true none
        (some zeroStats)).last = some d →
      statsUpdate (StatsCoord.mk 1 "cid" "1:web" 0 true none
        (some zeroStats)) none
        = (StatsCoord.mk 1 "cid" "1:web" 0 true none (some zeroStats), d))
    ∧ ((StatsCoord.mk 1 "cid" "1:web" 0 true none
        (some zeroStats)).last = none →
        statsUpdate (StatsCoord.mk 1 "cid" "1:web" 0 true none
          (some zeroStats)) none
          = ({ StatsCoord.mk 1 "cid" "1:web" 0 true none (some zeroStats)
                with last := some zeroStats }, zeroStats)
        ∧ zeroStats.cpu_percent = 0
        ∧ zeroStats.mem_used_bytes = 0
        ∧ zeroStats.mem_used_mib = 0
        ∧ zeroStats.mem_percent = 0
        ∧ zeroStats.raw = JVal.jobj []) :=
  C8_stats_tick_no_data (StatsCoord.mk 1 "cid" "1:web" 0 true none (some zeroStats))

/-! ## String infrastructure for the synthetic stack keys

The synthetic stack key `f"{eid}:synth-{eid}:{name}"` must be
injective in `(eid, name)` for the fallback to produce exactly one
record per observed pair; this needs that decimal numerals contain no
colon, and that `Nat.repr` is injective. -/

theorem string_mk_data (s t : String) (h : s.data = t.data) : s = t := by
  cases s
  cases t
  exact congrArg String.mk h

theorem data_toString_string (s : String) : (toString s).data = s.data := rfl

theorem data_toString_nat (n : Nat) : (toString n).data = (Nat.repr n).data := rfl

theorem data_empty_lit : ("" : String).data = [] := rfl

theorem data_colon_lit : (":" : String).data = [':'] := rfl

theorem data_synth_lit : ("synth-" : String).data
    = ['s', 'y', 'n', 't', 'h', '-'] := rfl

theorem repr_data (n : Nat) : (Nat.repr n).data = Nat.toDigits 10 n := rfl

theorem digitChar_toNat (n : Nat) (h : n < 10) :
    (Nat.digitChar n).toNat = n + 48 := by
  interval_cases n <;> decide

theorem digitChar_ne_colon (n : Nat) (h : n < 10) : Nat.digitChar n ≠ ':' := by
  interval_cases n <;> decide

theorem toDigitsCore_append (fuel n : Nat) (ds : List Char) :
    Nat.toDigitsCore 10 fuel n ds = Nat.toDigitsCore 10 fuel n [] ++ ds := by
  induction fuel generalizing n ds with
  | zero => rfl
  | succ fuel ih =>
      simp only [Nat.toDigitsCore]
      by_cases h : n / 10 = 0
      · simp [h]
      · rw [if_neg h, if_neg h, ih (n / 10) (Nat.digitChar (n % 10) :: ds),
          ih (n / 10) [Nat.digitChar (n % 10)]]
        simp

theorem toDigitsCore_ne_colon (fuel n : Nat) (ds : List Char)
    (hds : ∀ c ∈ ds, c ≠ ':') : ∀ c ∈ Nat.toDigitsCore 10 fuel n ds, c ≠ ':' := by
  induction fuel generalizing n ds with
  | zero => exact hds
  | succ fuel ih =>
      simp only [Nat.toDigitsCore]
      have hd : Nat.digitChar (n % 10) ≠ ':' :=
        digitChar_ne_colon (n % 10) (Nat.mod_lt n (by norm_num))
      by_cases h : n / 10 = 0
      · rw [if_pos h]
        intro c hc
        rcases List.mem_cons.mp hc with rfl | hc
        · exact hd
        · exact hds c hc
      · rw [if_neg h]
        refine ih (n / 10) (Nat.digitChar (n % 10) :: ds) ?_
        intro c hc
        rcases List.mem_cons.mp hc with rfl | hc
        · exact hd
        · exact hds c hc

theorem repr_ne_colon (n : Nat) : ∀ c ∈ (Nat.repr n).data, c ≠ ':' := by
  rw [repr_data]
  exact toDigitsCore_ne_colon (n + 1) n [] (by intro c hc; cases hc)

/-- Decimal value of a digit-character list, with accumulator. -/
def valAux (a : Nat) (l : List Char) : Nat :=
  l.foldl (fun acc c => 10 * acc + (c.toNat - 48)) a

theorem valAux_toDigitsCore (fuel : Nat) :
    ∀ n a, n < fuel →
    valAux a (Nat.toDigitsCore 10 fuel n []) =
      a * 10 ^ (Nat.toDigitsCore 10 fuel n []).length + n := by
  induction fuel with
  | zero => intro n a h; omega
  | succ fuel ih =>
      intro n a h
      simp only [Nat.toDigitsCore]
      have hmod : n % 10 < 10 := Nat.mod_lt n (by norm_num)
      have hdv : (Nat.digitChar (n % 10)).toNat = n % 10 + 48 :=
        digitChar_toNat (n % 10) hmod
      by_cases h0 : n / 10 = 0
      · rw [if_pos h0]
        simp only [valAux, List.foldl_cons, List.foldl_nil, List.length_cons,
          List.length_nil, hdv]
        have : n % 10 = n := by omega
        simp [this]
        ring
      · rw [if_neg h0]
        rw [toDigitsCore_append fuel (n / 10) [Nat.digitChar (n % 10)]]
        have hlt : n / 10 < fuel := by
          have := Nat.div_lt_self (by omega : 0 < n) (by norm_num : 1 < 10)
          omega
        have hih := ih (n / 10) a hlt
        simp only [valAux, List.foldl_append, List.foldl_cons, List.foldl_nil,
          List.length_append, List.length_cons, List.length_nil, hdv]
        simp only [valAux] at hih
        rw [hih]
        have hsplit : 10 * (n / 10) + n % 10 = n := Nat.div_add_mod n 10
        have hpow : 10 ^ ((Nat.toDigitsCore 10 fuel (n / 10) []).length + 1)
            = 10 ^ (Nat.toDigitsCore 10 fuel (n / 10) []).length * 10 := by
          ring
        rw [hpow]
        have hL : a * (10 ^ (Nat.toDigitsCore 10 fuel (n / 10) []).length * 10)
            = 10 * (a * 10 ^ (Nat.toDigitsCore 10 fuel (n / 10) []).length) := by
          ring
        rw [hL]
        omega

theorem valAux_repr (n : Nat) : valAux 0 (Nat.repr n).data = n := by
  rw [repr_data]
  have := valAux_toDigitsCore (n + 1) n 0 (by omega)
  simpa [Nat.toDigits] using this

theorem natRepr_inj (m n : Nat) (h : Nat.repr m = Nat.repr n) : m = n := by
  have hd : (Nat.repr m).data = (Nat.repr n).data := by rw [h]
  calc m = valAux 0 (Nat.repr m).data := (valAux_repr m).symm
    _ = valAux 0 (Nat.repr n).data := by rw [hd]
    _ = n := valAux_repr n

theorem colon_split_inj (a : List Char) :
    ∀ (b x y : List Char), (∀ c ∈ a, c ≠ ':') → (∀ c ∈ b, c ≠ ':') →
    a ++ ':' :: x = b ++ ':' :: y → a = b ∧ x = y := by
  induction a with
  | nil =>
      intro b x y _ hb h
      cases b with
      | nil => simpa using h
      | cons c bs =>
          simp only [List.nil_append, List.cons_append, List.cons.injEq] at h
          exact absurd h.1.symm (hb c (List.mem_cons_self c bs))
  | cons c as ih =>
      intro b x y ha hb h
      cases b with
      | nil =>
          simp only [List.nil_append, List.cons_append, List.cons.injEq] at h
          exact absurd h.1 (ha c (List.mem_cons_self c as))
      | cons d bs =>
          simp only [List.cons_append, List.cons.injEq] at h
          obtain ⟨rfl, h2⟩ := h
          have := ih bs x y
            (fun e he => ha e (List.mem_cons_of_mem c he))
            (fun e he => hb e (List.mem_cons_of_mem c he)) h2
          exact ⟨by rw [this.1], this.2⟩

/-- The synthetic stack id `f"synth-{eid}:{stack_name}"`. -/
def synthId (eid : Nat) (lbl : String) : String := s!"synth-{eid}:{lbl}"

/-- The synthetic stack key `f"{eid}:{synth_id}"`. -/
def synthKey (eid : Nat) (lbl : String) : String := s!"{eid}:{synthId eid lbl}"

theorem synthKey_data (eid : Nat) (lbl : String) :
    (synthKey eid lbl).data
      = (Nat.repr eid).data
        ++ ':' :: ('s' :: 'y' :: 'n' :: 't' :: 'h' :: '-' ::
          ((Nat.repr eid).data ++ ':' :: lbl.data)) := by
  simp [synthKey, synthId, String.data_append, data_toString_string,
    data_toString_nat, data_empty_lit, data_colon_lit, data_synth_lit]

theorem synthKey_inj (e1 e2 : Nat) (l1 l2 : String)
    (h : synthKey e1 l1 = synthKey e2 l2) : e1 = e2 ∧ l1 = l2 := by
  have hd : (synthKey e1 l1).data = (synthKey e2 l2).data := by rw [h]
  rw [synthKey_data, synthKey_data] at hd
  have h1 := colon_split_inj (Nat.repr e1).data (Nat.repr e2).data _ _
    (repr_ne_colon e1) (repr_ne_colon e2) hd
  obtain ⟨hr, hrest⟩ := h1
  simp only [List.cons.injEq, true_and] at hrest
  have h2 := colon_split_inj (Nat.repr e1).data (Nat.repr e2).data _ _
    (repr_ne_colon e1) (repr_ne_colon e2) hrest
  have he : e1 = e2 := natRepr_inj e1 e2 (string_mk_data _ _ hr)
  exact ⟨he, string_mk_data l1 l2 h2.2⟩

/-! ## Association-list lemmas -/

theorem AList.get_insert_self {α : Type} (m : AList α) (k : String) (v : α) :
    AList.get (AList.insert m k v) k = some v := by
  induction m with
  | nil => simp [AList.insert, AList.get]
  | cons p rest ih =>
      obtain ⟨k', v'⟩ := p
      by_cases h : k' = k
      · simp [AList.insert, AList.get, h]
      · simp [AList.insert, AList.get, h, ih]

theorem AList.get_append_single_some {α : Type} (m : AList α)
    (k k' : String) (v w : α) (h : AList.get m k' = some w) :
    AList.get (m ++ [(k, v)]) k' = some w := by
  induction m with
  | nil => simp [AList.get] at h
  | cons p rest ih =>
      obtain ⟨k0, v0⟩ := p
      by_cases h0 : k0 = k'
      · simp [AList.get, h0] at h ⊢
        exact h
      · simp [AList.get, h0] at h ⊢
        exact ih h

theorem AList.get_append_single_none {α : Type} (m : AList α)
    (k k' : String) (v : α) (h : AList.get m k' = none) :
    AList.get (m ++ [(k, v)]) k'
      = if k = k' then some v else none := by
  induction m with
  | nil => simp [AList.get]
  | cons p rest ih =>
      obtain ⟨k0, v0⟩ := p
      by_cases h0 : k0 = k'
      · simp [AList.get, h0] at h
      · simp [AList.get, h0] at h ⊢
        exact ih h

theorem AList.get_mem {α : Type} (m : AList α) (k : String) (v : α)
    (h : AList.get m k = some v) : (k, v) ∈ m := by
  induction m with
  | nil => simp [AList.get] at h
  | cons p rest ih =>
      obtain ⟨k0, v0⟩ := p
      by_cases h0 : k0 = k
      · simp [AList.get, h0] at h
        subst h0
        subst h
        exact List.mem_cons_self _ _
      · simp [AList.get, h0] at h
        exact List.mem_cons_of_mem _ (ih h)

theorem AList.get_none_iff {α : Type} (m : AList α) (k : String) :
    AList.get m k = none ↔ k ∉ AList.keys m := by
  induction m with
  | nil => simp [AList.get, AList.keys]
  | cons p rest ih =>
      obtain ⟨k0, v0⟩ := p
      by_cases h0 : k0 = k
      · simp [AList.get, AList.keys, h0]
      · simp [AList.get, AList.keys, h0, ih]
        tauto

theorem AList.keys_append_single {α : Type} (m : AList α) (k : String) (v : α) :
    AList.keys (m ++ [(k, v)]) = AList.keys m ++ [k] := by
  simp [AList.keys]

/-! ## The fallback fold -/

/-- One step of the `_fallback_stacks_from_containers` fold (the loop
body over one container). -/
def fbStep (endpoints : List Endpoint) (result : AList StackRec)
    (c : Container) : AList StackRec :=
  let eid := c.EndpointId
  let stack_name := pyStrip c.Compose_Stack
  if eid = 0 ∨ stack_name = "" then result
  else
    let synth_id := synthId eid stack_name
    let key := synthKey eid stack_name
    if (AList.get result key).isSome then result
    else
      result ++ [(key,
        { Id := synth_id
          Name := stack_name
          EndpointId := eid
          Type_ := 0
          Environment := (match epGet endpoints eid with
                          | some e => e.Name
                          | none => "") })]

theorem fallback_eq_foldl (endpoints : List Endpoint) (flat : AList Container) :
    fallbackStacksFromContainers endpoints flat
      = (AList.values flat).foldl (fbStep endpoints) AList.empty := rfl

/-- Does the flattened container snapshot exhibit the given
(endpoint, stripped non-empty compose label) pair? -/
def observesPair (flat : AList Container) (eid : Nat) (lbl : String) : Bool :=
  (AList.values flat).any
    (fun c => c.EndpointId == eid && pyStrip c.Compose_Stack == lbl)

theorem fbStep_get (endpoints : List Endpoint) (acc : AList StackRec)
    (c : Container) (eid : Nat) (lbl : String)
    (heid : eid ≠ 0) (hlbl : lbl ≠ "") :
    (AList.get (fbStep endpoints acc c) (synthKey eid lbl)).isSome
      = ((AList.get acc (synthKey eid lbl)).isSome
         || (c.EndpointId == eid && pyStrip c.Compose_Stack == lbl)) := by
  by_cases hmatch : c.EndpointId = eid ∧ pyStrip c.Compose_Stack = lbl
  · obtain ⟨he, hl⟩ := hmatch
    have hm : (c.EndpointId == eid && (pyStrip c.Compose_Stack == lbl)) = true := by
      simp [he, hl]
    rw [hm]
    have hguard : ¬(c.EndpointId = 0 ∨ pyStrip c.Compose_Stack = "") := by
      rw [he, hl]
      push_neg
      exact ⟨heid, hlbl⟩
    simp only [fbStep]
    rw [if_neg hguard]
    rw [he, hl]
    by_cases hin : (AList.get acc (synthKey eid lbl)).isSome
    · rw [if_pos hin]
      simp [hin]
    · rw [if_neg hin]
      have hnone : AList.get acc (synthKey eid lbl) = none :=
        Option.not_isSome_iff_eq_none.mp hin
      rw [AList.get_append_single_none acc _ _ _ hnone, if_pos rfl]
      simp [hnone]
  · have hm : (c.EndpointId == eid && (pyStrip c.Compose_Stack == lbl)) = false := by
      rcases not_and_or.mp hmatch with h | h <;> simp [h]
    rw [hm, Bool.or_false]
    simp only [fbStep]
    by_cases hguard : c.EndpointId = 0 ∨ pyStrip c.Compose_Stack = ""
    · rw [if_pos hguard]
    · rw [if_neg hguard]
      by_cases hin : (AList.get acc
          (synthKey c.EndpointId (pyStrip c.Compose_Stack))).isSome
      · rw [if_pos hin]
      · rw [if_neg hin]
        have hkey : synthKey c.EndpointId (pyStrip c.Compose_Stack)
            ≠ synthKey eid lbl := by
          intro hk
          exact hmatch ⟨(synthKey_inj _ _ _ _ hk).1, (synthKey_inj _ _ _ _ hk).2⟩
        by_cases hK : AList.get acc (synthKey eid lbl) = none
        · rw [AList.get_append_single_none acc _ _ _ hK, if_neg hkey]
          simp [hK]
        · obtain ⟨w, hw⟩ := Option.ne_none_iff_exists'.mp hK
          rw [AList.get_append_single_some acc _ _ _ w hw, hw]

theorem fb_get_foldl (endpoints : List Endpoint) (cs : List Container)
    (eid : Nat) (lbl : String) (heid : eid ≠ 0) (hlbl : lbl ≠ "") :
    ∀ acc : AList StackRec,
    (AList.get (cs.foldl (fbStep endpoints) acc) (synthKey eid lbl)).isSome
      = ((AList.get acc (synthKey eid lbl)).isSome
         || cs.any (fun c => c.EndpointId == eid && pyStrip c.Compose_Stack == lbl)) := by
  induction cs with
  | nil => intro acc; simp
  | cons c cs ih =>
      intro acc
      rw [List.foldl_cons, ih (fbStep endpoints acc c),
        fbStep_get endpoints acc c eid lbl heid hlbl, List.any_cons]
      rw [Bool.or_assoc]

/-- Structural invariant of the fallback accumulator: every entry is
keyed by the synthetic key of its own record, whose id is the
synthetic id of its endpoint and name. -/
def fbWf (m : AList StackRec) : Prop :=
  ∀ p ∈ m, p.1 = synthKey p.2.EndpointId p.2.Name
    ∧ p.2.Id = synthId p.2.EndpointId p.2.Name
    ∧ p.2.EndpointId ≠ 0 ∧ p.2.Name ≠ ""

theorem fbStep_wf (endpoints : List Endpoint) (acc : AList StackRec)
    (c : Container) (h : fbWf acc) : fbWf (fbStep endpoints acc c) := by
  simp only [fbStep]
  by_cases hguard : c.EndpointId = 0 ∨ pyStrip c.Compose_Stack = ""
  · rw [if_pos hguard]
    exact h
  · rw [if_neg hguard]
    by_cases hin : (AList.get acc
        (synthKey c.EndpointId (pyStrip c.Compose_Stack))).isSome
    · rw [if_pos hin]
      exact h
    · rw [if_neg hin]
      intro p hp
      rcases List.mem_append.mp hp with hp | hp
      · exact h p hp
      · push_neg at hguard
        simp only [List.mem_singleton] at hp
        subst hp
        exact ⟨rfl, rfl, hguard.1, hguard.2⟩

theorem fb_wf_foldl (endpoints : List Endpoint) (cs : List Container) :
    ∀ acc : AList StackRec, fbWf acc → fbWf (cs.foldl (fbStep endpoints) acc) := by
  induction cs with
  | nil => intro acc h; exact h
  | cons c cs ih =>
      intro acc h
      rw [List.foldl_cons]
      exact ih _ (fbStep_wf endpoints acc c h)

theorem fbStep_nodup (endpoints : List Endpoint) (acc : AList StackRec)
    (c : Container) (h : (AList.keys acc).Nodup) :
    (AList.keys (fbStep endpoints acc c)).Nodup := by
  simp only [fbStep]
  by_cases hguard : c.EndpointId = 0 ∨ pyStrip c.Compose_Stack = ""
  · rw [if_pos hguard]
    exact h
  · rw [if_neg hguard]
    by_cases hin : (AList.get acc
        (synthKey c.EndpointId (pyStrip c.Compose_Stack))).isSome
    · rw [if_pos hin]
      exact h
    · rw [if_neg hin]
      have hnone := Option.not_isSome_iff_eq_none.mp hin
      have hnotin := (AList.get_none_iff acc _).mp hnone
      rw [AList.keys_append_single]
      simp [List.nodup_append, h, hnotin]

theorem fb_nodup_foldl (endpoints : List Endpoint) (cs : List Container) :
    ∀ acc : AList StackRec, (AList.keys acc).Nodup →
    (AList.keys (cs.foldl (fbStep endpoints) acc)).Nodup := by
  induction cs with
  | nil => intro acc h; exact h
  | cons c cs ih =>
      intro acc h
      rw [List.foldl_cons]
      exact ih _ (fbStep_nodup endpoints acc c h)

theorem getStacks_fallback_trigger (endpoints : List Endpoint)
    (flat : AList Container) (src : Option (List RawStack))
    (hne : endpoints ≠ [])
    (ht : src.getD [] = []
      ∨ ∀ s ∈ src.getD [],
          ((endpoints.filter (fun e => e.Status = 1)).any
            (fun e => e.Id = s.EndpointId)) = false) :
    getStacks endpoints flat src = fallbackStacksFromContainers endpoints flat := by
  have hne' : endpoints.isEmpty = false := by
    cases endpoints with
    | nil => exact absurd rfl hne
    | cons e es => rfl
  by_cases hempty : (src.getD []).isEmpty
  · simp only [getStacks, hne']
    rw [if_neg (by simp)]
    rw [if_pos hempty]
  · rcases ht with h | h
    · rw [h] at hempty
      simp at hempty
    · have hgrouped : (src.getD []).foldl
          (fun (grouped : AList (AList StackRec)) s =>
            if (endpoints.filter (fun e => e.Status = 1)).any
                (fun e => e.Id = s.EndpointId) then
              match epGet endpoints s.EndpointId with
              | none => grouped
              | some ep =>
                  let rec_ : StackRec :=
                    { Id := toString s.Id
                      Name := s.Name
                      EndpointId := s.EndpointId
                      Type_ := s.Type_
                      Environment := ep.Name }
                  let sub := (AList.get grouped (toString s.EndpointId)).getD AList.empty
                  AList.insert grouped (toString s.EndpointId)
                    (AList.insert sub (toString s.Id) rec_)
            else grouped)
          AList.empty = AList.empty := by
        have key : ∀ (l : List RawStack),
            (∀ s ∈ l, ((endpoints.filter (fun e => e.Status = 1)).any
              (fun e => e.Id = s.EndpointId)) = false) →
            l.foldl
              (fun (grouped : AList (AList StackRec)) s =>
                if (endpoints.filter (fun e => e.Status = 1)).any
                    (fun e => e.Id = s.EndpointId) then
                  match epGet endpoints s.EndpointId with
                  | none => grouped
                  | some ep =>
                      let rec_ : StackRec :=
                        { Id := toString s.Id
                          Name := s.Name
                          EndpointId := s.EndpointId
                          Type_ := s.Type_
                          Environment := ep.Name }
                      let sub := (AList.get grouped (toString s.EndpointId)).getD AList.empty
                      AList.insert grouped (toString s.EndpointId)
                        (AList.insert sub (toString s.Id) rec_)
                else grouped)
              AList.empty = AList.empty := by
          intro l hl
          induction l with
          | nil => rfl
          | cons x xs ih =>
              rw [List.foldl_cons]
              have hx := hl x (List.mem_cons_self x xs)
              rw [if_neg (by rw [hx]; exact Bool.false_ne_true)]
              exact ih (fun y hy => hl y (List.mem_cons_of_mem x hy))
        exact key _ h
      simp only [getStacks, hne']
      rw [if_neg (by simp)]
      rw [if_neg hempty]
      rw [hgrouped]
      simp [AList.empty]

/-! ## Claims C9, C1, C2 -/

/-- Claim C9: when the upstream stacks query yields no data, or every
returned stack is filtered out because its endpoint is not online,
`get_stacks` synthesizes exactly one stack record per distinct
(non-zero endpoint, non-empty stripped compose-project label) pair
observed on the container snapshot — the synthetic key resolves to a
record iff the pair is observed, keys are pairwise distinct, and each
record carries the deterministic id `synth-<EndpointId>:<StackName>`
and the label as its name; with labels `myapp` and `edge` present this
yields exactly the two expected records. -/
theorem C9_stack_synthesis (endpoints : List Endpoint) (flat : AList Container)
    (src : Option (List RawStack)) (hne : endpoints ≠ [])
    (ht : src.getD [] = []
      ∨ ∀ s ∈ src.getD [],
          ((endpoints.filter (fun e => e.Status = 1)).any
            (fun e => e.Id = s.EndpointId)) = false) :
    getStacks endpoints flat src = fallbackStacksFromContainers endpoints flat
    ∧ (∀ eid lbl, eid ≠ 0 → lbl ≠ "" →
        (AList.get (getStacks endpoints flat src) (synthKey eid lbl)).isSome
          = observesPair flat eid lbl)
    ∧ (∀ eid lbl r, eid ≠ 0 → lbl ≠ "" →
        AList.get (getStacks endpoints flat src) (synthKey eid lbl) = some r →
        r.Id = synthId eid lbl ∧ r.Name = lbl ∧ r.EndpointId = eid)
    ∧ (AList.keys (getStacks endpoints flat src)).Nodup
    ∧ getStacks [Endpoint.mk 1 "ep" 1]
        [("1aaa", Container.mk "aaa" "web-1" 1 "myapp" "web" "running"),
         ("1bbb", Container.mk "bbb" "db-1" 1 "myapp" "db" "exited"),
         ("1ccc", Container.mk "ccc" "edge-1" 1 "edge" "proxy" "running")] none
      = [("1:synth-1:myapp", StackRec.mk "synth-1:myapp" "myapp" 1 0 "ep"),
         ("1:synth-1:edge", StackRec.mk "synth-1:edge" "edge" 1 0 "ep")] := by
  have hfb := getStacks_fallback_trigger endpoints flat src hne ht
  refine ⟨hfb, ?_, ?_, ?_, ?_⟩
  · intro eid lbl heid hlbl
    rw [hfb, fallback_eq_foldl,
      fb_get_foldl endpoints (AList.values flat) eid lbl heid hlbl AList.empty]
    simp [AList.empty, AList.get, observesPair]
  · intro eid lbl r heid hlbl hget
    rw [hfb, fallback_eq_foldl] at hget
    have hwf := fb_wf_foldl endpoints (AList.values flat) AList.empty
      (by intro p hp; cases hp)
    have hmem := AList.get_mem _ _ _ hget
    obtain ⟨hk, hid, _, _⟩ := hwf _ hmem
    obtain ⟨he, hl⟩ := synthKey_inj eid r.EndpointId lbl r.Name hk
    refine ⟨?_, hl.symm, he.symm⟩
    rw [he, hl]
    exact hid
  · rw [hfb, fallback_eq_foldl]
    exact fb_nodup_foldl endpoints (AList.values flat) AList.empty
      (by simp [AList.keys, AList.empty])
  · rfl

/-- Witness for C9: a single online endpoint, three containers in two
compose projects, empty upstream stacks answer. -/
theorem C9_witness :
    getStacks [Endpoint.mk 1 "ep" 1]
        [("1aaa", Container.mk "aaa" "web-1" 1 "myapp" "web" "running"),
         ("1bbb", Container.mk "bbb" "db-1" 1 "myapp" "db" "exited"),
         ("1ccc", Container.mk "ccc" "edge-1" 1 "edge" "proxy" "running")] none
      = fallbackStacksFromContainers [Endpoint.mk 1 "ep" 1]
        [("1aaa", Container.mk "aaa" "web-1" 1 "myapp" "web" "running"),
         ("1bbb", Container.mk "bbb" "db-1" 1 "myapp" "db" "exited"),
         ("1ccc", Container.mk "ccc" "edge-1" 1 "edge" "proxy" "running")]
    ∧ (∀ eid lbl, eid ≠ 0 → lbl ≠ "" →
        (AList.get (getStacks [Endpoint.mk 1 "ep" 1]
          [("1aaa", Container.mk "aaa" "web-1" 1 "myapp" "web" "running"),
           ("1bbb", Container.mk "bbb" "db-1" 1 "myapp" "db" "exited"),
           ("1ccc", Container.mk "ccc" "edge-1" 1 "edge" "proxy" "running")] none)
          (synthKey eid lbl)).isSome
          = observesPair
            [("1aaa", Container.mk "aaa" "web-1" 1 "myapp" "web" "running"),
             ("1bbb", Container.mk "bbb" "db-1" 1 "myapp" "db" "exited"),
             ("1ccc", Container.mk "ccc" "edge-1" 1 "edge" "proxy" "running")]
            eid lbl)
    ∧ (∀ eid lbl r, eid ≠ 0 → lbl ≠ "" →
        AList.get (getStacks [Endpoint.mk 1 "ep" 1]
          [("1aaa", Container.mk "aaa" "web-1" 1 "myapp" "web" "running"),
           ("1bbb", Container.mk "bbb" "db-1" 1 "myapp" "db" "exited"),
           ("1ccc", Container.mk "ccc" "edge-1" 1 "edge" "proxy" "running")] none)
          (synthKey eid lbl) = some r →
        r.Id = synthId eid lbl ∧ r.Name = lbl ∧ r.EndpointId = eid)
    ∧ (AList.keys (getStacks [Endpoint.mk 1 "ep" 1]
        [("1aaa", Container.mk "aaa" "web-1" 1 "myapp" "web" "running"),
         ("1bbb", Container.mk "bbb" "db-1" 1 "myapp" "db" "exited"),
         ("1ccc", Container.mk "ccc" "edge-1" 1 "edge" "proxy" "running")] none)).Nodup
    ∧ getStacks [Endpoint.mk 1 "ep" 1]
        [("1aaa", Container.mk "aaa" "web-1" 1 "myapp" "web" "running"),
         ("1bbb", Container.mk "bbb" "db-1" 1 "myapp" "db" "exited"),
         ("1ccc", Container.mk "ccc" "edge-1" 1 "edge" "proxy" "running")] none
      = [("1:synth-1:myapp", StackRec.mk "synth-1:myapp" "myapp" 1 0 "ep"),
         ("1:synth-1:edge", StackRec.mk "synth-1:edge" "edge" 1 0 "ep")] :=
  C9_stack_synthesis [Endpoint.mk 1 "ep" 1]
    [("1aaa", Container.mk "aaa" "web-1" 1 "myapp" "web" "running"),
     ("1bbb", Container.mk "bbb" "db-1" 1 "myapp" "db" "exited"),
     ("1ccc", Container.mk "ccc" "edge-1" 1 "edge" "proxy" "running")] none
    (List.cons_ne_nil _ _) (Or.inl rfl)

/-- Claim C1: across a rename/recreate with identical compose labels,
the sensor's unique id — derived from (endpoint, original name) — is
unchanged by resolution; the stats registry returns the cached
sub-coordinator for the stable key with only its target container id
updated in place; and resolution against the new snapshot returns the
renamed container's record (new name, new id), the sensor adopting the
new name. -/
theorem C1_stable_identity (origC newC : Container) (byName : AList Container)
    (registry : AList StatsCoord) (coord : StatsCoord) (sensorKey : String)
    (alpha : ℚ) (excludeCache : Bool)
    (heid : newC.EndpointId = origC.EndpointId)
    (hstack : newC.Compose_Stack = origC.Compose_Stack)
    (hserv : newC.Compose_Service = origC.Compose_Service)
    (hlbl : origC.Compose_Stack ≠ "" ∨ origC.Compose_Service ≠ "")
    (hname : newC.Name ≠ origC.Name)
    (hid : newC.Id ≠ origC.Id)
    (hnn : newC.Name ≠ "")
    (hmiss : AList.get byName (stableKey origC.EndpointId origC.Name) = none)
    (hfind : (AList.values byName).find?
        (fun cand =>
          cand.EndpointId == origC.EndpointId
            && cand.Compose_Stack == origC.Compose_Stack
            && cand.Compose_Service == origC.Compose_Service) = some newC)
    (hreg : AList.get registry (stableKey origC.EndpointId origC.Name)
        = some coord) :
    (resolveCurrentContainer (mkContainerSensor origC sensorKey) byName).1
        = some newC
    ∧ (resolveCurrentContainer (mkContainerSensor origC sensorKey) byName).2.uniqueId
        = (mkContainerSensor origC sensorKey).uniqueId
    ∧ (resolveCurrentContainer (mkContainerSensor origC sensorKey) byName).2.containerName
        = newC.Name
    ∧ (getOrCreateStatsCoord registry origC.EndpointId
        (stableKey origC.EndpointId origC.Name) newC.Id alpha excludeCache).1
        = { coord with containerId := newC.Id }
    ∧ (getOrCreateStatsCoord registry origC.EndpointId
        (stableKey origC.EndpointId origC.Name) newC.Id alpha excludeCache).1.last
        = coord.last
    ∧ (getOrCreateStatsCoord registry origC.EndpointId
        (stableKey origC.EndpointId origC.Name) newC.Id alpha excludeCache).1.lastCpu
        = coord.lastCpu
    ∧ (getOrCreateStatsCoord registry origC.EndpointId
        (stableKey origC.EndpointId origC.Name) newC.Id alpha excludeCache).1.containerKey
        = coord.containerKey
    ∧ AList.get (getOrCreateStatsCoord registry origC.EndpointId
        (stableKey origC.EndpointId origC.Name) newC.Id alpha excludeCache).2
        (stableKey origC.EndpointId origC.Name)
        = some { coord with containerId := newC.Id } := by
  have hres : resolveCurrentContainer (mkContainerSensor origC sensorKey) byName
      = (some newC,
         { mkContainerSensor origC sensorKey with containerName := newC.Name }) := by
    simp only [resolveCurrentContainer, mkContainerSensor]
    rw [show (toString "" ++ toString origC.EndpointId ++ toString ":"
        ++ toString origC.Name ++ toString "" : String)
        = stableKey origC.EndpointId origC.Name from rfl]
    rw [hmiss]
    rw [if_pos hlbl]
    rw [hfind]
    simp [hnn]
  have hco : getOrCreateStatsCoord registry origC.EndpointId
      (stableKey origC.EndpointId origC.Name) newC.Id alpha excludeCache
      = ({ coord with containerId := newC.Id },
         AList.insert registry (stableKey origC.EndpointId origC.Name)
           { coord with containerId := newC.Id }) := by
    simp only [getOrCreateStatsCoord]
    rw [hreg]
  rw [hres, hco]
  refine ⟨rfl, rfl, rfl, rfl, rfl, rfl, rfl, ?_⟩
  exact AList.get_insert_self registry _ _

/-- Witness for C1: container `web-1` of compose service `myapp/web`
on endpoint 1 is recreated as `web-2` with a new id. -/
theorem C1_witness :
    (resolveCurrentContainer
      (mkContainerSensor (Container.mk "id1" "web-1" 1 "myapp" "web" "running")
        "containers_cpu_pct")
      [("1:web-2", Container.mk "id2" "web-2" 1 "myapp" "web" "running")]).1
        = some (Container.mk "id2" "web-2" 1 "myapp" "web" "running")
    ∧ (resolveCurrentContainer
        (mkContainerSensor (Container.mk "id1" "web-1" 1 "myapp" "web" "running")
          "containers_cpu_pct")
        [("1:web-2", Container.mk "id2" "web-2" 1 "myapp" "web" "running")]).2.uniqueId
        = (mkContainerSensor (Container.mk "id1" "web-1" 1 "myapp" "web" "running")
            "containers_cpu_pct").uniqueId
    ∧ (resolveCurrentContainer
        (mkContainerSensor (Container.mk "id1" "web-1" 1 "myapp" "web" "running")
          "containers_cpu_pct")
        [("1:web-2", Container.mk "id2" "web-2" 1 "myapp" "web" "running")]).2.containerName
        = (Container.mk "id2" "web-2" 1 "myapp" "web" "running").Name
    ∧ (getOrCreateStatsCoord
        [("1:web-1", StatsCoord.mk 1 "id1" "1:web-1" (1 / 5) true (some 3)
          (some zeroStats))] 1 (stableKey 1 "web-1") "id2" (1 / 5) true).1
        = { StatsCoord.mk 1 "id1" "1:web-1" (1 / 5) true (some 3) (some zeroStats)
            with containerId := "id2" }
    ∧ (getOrCreateStatsCoord
        [("1:web-1", StatsCoord.mk 1 "id1" "1:web-1" (1 / 5) true (some 3)
          (some zeroStats))] 1 (stableKey 1 "web-1") "id2" (1 / 5) true).1.last
        = (StatsCoord.mk 1 "id1" "1:web-1" (1 / 5) true (some 3) (some zeroStats)).last
    ∧ (getOrCreateStatsCoord
        [("1:web-1", StatsCoord.mk 1 "id1" "1:web-1" (1 / 5) true (some 3)
          (some zeroStats))] 1 (stableKey 1 "web-1") "id2" (1 / 5) true).1.lastCpu
        = (StatsCoord.mk 1 "id1" "1:web-1" (1 / 5) true (some 3) (some zeroStats)).lastCpu
    ∧ (getOrCreateStatsCoord
        [("1:web-1", StatsCoord.mk 1 "id1" "1:web-1" (1 / 5) true (some 3)
          (some zeroStats))] 1 (stableKey 1 "web-1") "id2" (1 / 5) true).1.containerKey
        = (StatsCoord.mk 1 "id1" "1:web-1" (1 / 5) true (some 3) (some zeroStats)).containerKey
    ∧ AList.get (getOrCreateStatsCoord
        [("1:web-1", StatsCoord.mk 1 "id1" "1:web-1" (1 / 5) true (some 3)
          (some zeroStats))] 1 (stableKey 1 "web-1") "id2" (1 / 5) true).2
        (stableKey 1 "web-1")
        = some { StatsCoord.mk 1 "id1" "1:web-1" (1 / 5) true (some 3) (some zeroStats)
            with containerId := "id2" } :=
  C1_stable_identity
    (Container.mk "id1" "web-1" 1 "myapp" "web" "running")
    (Container.mk "id2" "web-2" 1 "myapp" "web" "running")
    [("1:web-2", Container.mk "id2" "web-2" 1 "myapp" "web" "running")]
    [("1:web-1", StatsCoord.mk 1 "id1" "1:web-1" (1 / 5) true (some 3)
      (some zeroStats))]
    (StatsCoord.mk 1 "id1" "1:web-1" (1 / 5) true (some 3) (some zeroStats))
    "containers_cpu_pct" (1 / 5) true
    rfl rfl rfl (Or.inl (by decide)) (by decide) (by decide) (by decide)
    rfl rfl rfl

/-- Claim C2: when any fetch stage of the main coordinator tick fails
(endpoints, containers, stacks, or system data), the tick surfaces a
recoverable `UpdateFailed` outcome, the tick lock is released, and the
previously published snapshot is unchanged. -/
theorem C2_tick_failure (st : CoordState) (fo : FetchOutcomes)
    (raw : RawData) (e : String) (h : runStages fo = (raw, some e)) :
    (asyncUpdateData st true fo).2 = TickResult.updateFailed e
    ∧ (asyncUpdateData st true fo).1.published = st.published
    ∧ (asyncUpdateData st true fo).1.lockHeld = false := by
  have hall : asyncUpdateData st true fo
      = ({ published := st.published, rawData := raw, lockHeld := false },
         TickResult.updateFailed e) := by
    unfold asyncUpdateData
    rw [h]
    rfl
  rw [hall]
  exact ⟨rfl, rfl, rfl⟩

/-- Witness for C2: the containers stage throws while a non-empty
snapshot is published. -/
theorem C2_witness :
    (asyncUpdateData
      (CoordState.mk
        { emptyRaw with endpoints := some [Endpoint.mk 1 "ep" 1] }
        { emptyRaw with endpoints := some [Endpoint.mk 1 "ep" 1] } false)
      true
      (FetchOutcomes.mk (Except.ok [Endpoint.mk 1 "ep" 1])
        (Except.error "boom") (Except.ok none)
        (Except.ok (SystemData.mk "never" false "never")))).2
      = TickResult.updateFailed "boom"
    ∧ (asyncUpdateData
        (CoordState.mk
          { emptyRaw with endpoints := some [Endpoint.mk 1 "ep" 1] }
          { emptyRaw with endpoints := some [Endpoint.mk 1 "ep" 1] } false)
        true
        (FetchOutcomes.mk (Except.ok [Endpoint.mk 1 "ep" 1])
          (Except.error "boom") (Except.ok none)
          (Except.ok (SystemData.mk "never" false "never")))).1.published
      = (CoordState.mk
          { emptyRaw with endpoints := some [Endpoint.mk 1 "ep" 1] }
          { emptyRaw with endpoints := some [Endpoint.mk 1 "ep" 1] } false).published
    ∧ (asyncUpdateData
        (CoordState.mk
          { emptyRaw with endpoints := some [Endpoint.mk 1 "ep" 1] }
          { emptyRaw with endpoints := some [Endpoint.mk 1 "ep" 1] } false)
        true
        (FetchOutcomes.mk (Except.ok [Endpoint.mk 1 "ep" 1])
          (Except.error "boom") (Except.ok none)
          (Except.ok (SystemData.mk "never" false "never")))).1.lockHeld = false :=
  C2_tick_failure
    (CoordState.mk
      { emptyRaw with endpoints := some [Endpoint.mk 1 "ep" 1] }
      { emptyRaw with endpoints := some [Endpoint.mk 1 "ep" 1] } false)
    (FetchOutcomes.mk (Except.ok [Endpoint.mk 1 "ep" 1])
      (Except.error "boom") (Except.ok none)
      (Except.ok (SystemData.mk "never" false "never")))
    { emptyRaw with endpoints := some [Endpoint.mk 1 "ep" 1] } "boom" rfl

end Portainer
